import Mathlib

/-!
Shallow embedding of the gRPC blog service handlers in
`src/blog_server/blog_server.go` (package `main`): the five RPC handlers
`CreateBlog`, `ReadBlog`, `UpdateBlog`, `DeleteBlog`, `ListBlog`, together
with the identifier codec (`primitive.ObjectIDFromHex` / `ObjectID.Hex`)
they rely on.  The MongoDB collection is an external collaborator and is
modelled as an oracle of functions; each handler additionally records the
store calls it issues (with the `context` value it passes) so that claims
about "no store access" and "background context" are statable.
-/

set_option linter.unusedVariables false

namespace BlogService

/-- Status codes produced by the service (`google.golang.org/grpc/codes`). -/
inductive Code where
  | OK
  | InvalidArgument
  | NotFound
  | Internal
deriving DecidableEq, Repr

/-- A gRPC status error: a code plus a human-readable message
(`status.Errorf`). -/
structure GrpcError where
  code : Code
  msg : String
deriving DecidableEq, Repr

/-- Hex value of one character, as accepted by Go's `encoding/hex`
(`fromHexChar`): digits and both lowercase and uppercase `a`–`f`. -/
def hexVal (c : Char) : Option Nat :=
  if '0' ≤ c ∧ c ≤ '9' then some (c.toNat - '0'.toNat)
  else if 'a' ≤ c ∧ c ≤ 'f' then some (c.toNat - 'a'.toNat + 10)
  else if 'A' ≤ c ∧ c ≤ 'F' then some (c.toNat - 'A'.toNat + 10)
  else none

/-- Decode a character list two hex digits at a time into bytes
(`hex.Decode`); fails on an odd length or a non-hex character. -/
def decodeHexBytes : List Char → Option (List Nat)
  | [] => some []
  | [_] => none
  | c1 :: c2 :: rest =>
    match hexVal c1, hexVal c2, decodeHexBytes rest with
    | some hi, some lo, some bs => some ((16 * hi + lo) :: bs)
    | _, _, _ => none

/-- Lowercase hex digit for a value below 16 (`hex.EncodeToString` uses
the lowercase alphabet). -/
def hexChar (n : Nat) : Char :=
  if n < 10 then Char.ofNat ('0'.toNat + n) else Char.ofNat ('a'.toNat + (n - 10))

/-- Encode bytes as lowercase hex, two characters per byte. -/
def encodeHexBytes : List Nat → List Char
  | [] => []
  | b :: rest => hexChar (b / 16 % 16) :: hexChar (b % 16) :: encodeHexBytes rest

/-- MongoDB's native identifier (`primitive.ObjectID`): 12 bytes. -/
structure ObjectID where
  bytes : List Nat
deriving DecidableEq, Repr

/-- The zero `ObjectID` (Go zero value; `bson:"_id,omitempty"` omits it on
insert). -/
def ObjectID.zero : ObjectID := ⟨List.replicate 12 0⟩

/-- Canonical lowercase-hex string encoding of an identifier
(`primitive.ObjectID.Hex`). -/
def ObjectID.hex (o : ObjectID) : String := ⟨encodeHexBytes o.bytes⟩

/-- `primitive.ObjectIDFromHex`: requires exactly 24 characters and a
successful hex decode; any other string is rejected with an error. -/
def ObjectIDFromHex (s : String) : Except String ObjectID :=
  if s.length = 24 then
    match decodeHexBytes s.data with
    | some bs => .ok ⟨bs⟩
    | none => .error "encoding/hex: invalid byte"
  else .error "the provided hex string is not a valid ObjectID"

/-- The wire-form blog message (`blogpb.Blog`). -/
structure Blog where
  id : String
  authorId : String
  title : String
  content : String
deriving DecidableEq, Repr

/-- The stored document shape (`blogItem`). -/
structure BlogItem where
  id : ObjectID
  authorId : String
  content : String
  title : String
deriving DecidableEq, Repr

/-- `blogItemToBlogpb`: convert a stored document to the wire form,
hex-encoding the identifier. -/
def blogItemToBlogpb (item : BlogItem) : Blog :=
  { id := item.id.hex
    authorId := item.authorId
    title := item.title
    content := item.content }

/-- A Go `context.Context`, opaque to the service; only its identity
matters here. -/
structure Ctx where
  tag : Nat
deriving DecidableEq, Repr

/-- `context.Background()`. -/
def Ctx.background : Ctx := ⟨0⟩

/-- A BSON value as returned in `InsertOneResult.InsertedID`: either a
native `ObjectID` or some other value (on which the handler's type
assertion fails). -/
inductive BsonValue where
  | objectID (o : ObjectID)
  | other (tag : Nat)
deriving DecidableEq, Repr

/-- Result of `collection.InsertOne`. -/
structure InsertOneResult where
  insertedID : BsonValue
deriving DecidableEq, Repr

/-- Outcome of `SingleResult.Decode` after `FindOne`: the decoded
document, or `ErrNoDocuments`, or a decode (unmarshalling) failure. -/
inductive DecodeErr where
  | noDocuments
  | corrupt (m : String)
deriving DecidableEq, Repr

/-- Message text carried by a decode outcome, as interpolated by the
handlers. -/
def DecodeErr.text : DecodeErr → String
  | .noDocuments => "mongo: no documents in result"
  | .corrupt m => m

/-- Result of `collection.ReplaceOne` (the handler discards everything
but the error). -/
structure ReplaceResult where
  matchedCount : Nat
deriving DecidableEq, Repr

/-- Result of `collection.DeleteOne`. -/
structure DeleteResult where
  deletedCount : Nat
deriving DecidableEq, Repr

/-- One raw document yielded by a cursor: either decodable into a
`BlogItem` or not (`cur.Decode` fails). -/
inductive RawDoc where
  | good (item : BlogItem)
  | bad (m : String)
deriving DecidableEq, Repr

/-- A store cursor (`mongo.Cursor`): the finite sequence of documents
`cur.Next`/`cur.Decode` will traverse, plus the terminal error reported
by `cur.Err()` after exhaustion. -/
structure Cursor where
  docs : List RawDoc
  finalErr : Option String
deriving DecidableEq, Repr

/-- The store oracle: one response function per collection operation the
handlers use, each taking the `context` the handler passes. -/
structure MongoCollection where
  insertOne : Ctx → BlogItem → Except String InsertOneResult
  findOne : Ctx → ObjectID → Except DecodeErr BlogItem
  replaceOne : Ctx → ObjectID → BlogItem → Except String ReplaceResult
  deleteOne : Ctx → ObjectID → Except String DeleteResult
  find : Ctx → Except String Cursor

/-- A store call issued by a handler, with the context it carried. -/
inductive StoreCall where
  | insertOne (ctx : Ctx) (doc : BlogItem)
  | findOne (ctx : Ctx) (id : ObjectID)
  | replaceOne (ctx : Ctx) (id : ObjectID) (doc : BlogItem)
  | deleteOne (ctx : Ctx) (id : ObjectID)
  | find (ctx : Ctx)
deriving DecidableEq, Repr

/-- The context a store call carried. -/
def StoreCall.ctx : StoreCall → Ctx
  | .insertOne c _ => c
  | .findOne c _ => c
  | .replaceOne c _ _ => c
  | .deleteOne c _ => c
  | .find c => c

/-- `blogpb.CreateBlogRequest`. -/
structure CreateBlogRequest where
  blog : Blog
deriving DecidableEq, Repr

/-- `blogpb.CreateBlogResponse`. -/
structure CreateBlogResponse where
  blog : Blog
deriving DecidableEq, Repr

/-- `blogpb.ReadBlogRequest`. -/
structure ReadBlogRequest where
  blogId : String
deriving DecidableEq, Repr

/-- `blogpb.ReadBlogResponse`. -/
structure ReadBlogResponse where
  blog : Blog
deriving DecidableEq, Repr

/-- `blogpb.UpdateBlogRequest`. -/
structure UpdateBlogRequest where
  blog : Blog
deriving DecidableEq, Repr

/-- `blogpb.UpdateBlogResponse`. -/
structure UpdateBlogResponse where
  blog : Blog
deriving DecidableEq, Repr

/-- `blogpb.DeleteBlogRequest`. -/
structure DeleteBlogRequest where
  blogId : String
deriving DecidableEq, Repr

/-- `blogpb.DeleteBlogResponse`. -/
structure DeleteBlogResponse where
  blogId : String
deriving DecidableEq, Repr

/-- `blogpb.ListBlogResponse`. -/
structure ListBlogResponse where
  blog : Blog
deriving DecidableEq, Repr

/-- The document `CreateBlog` builds from the request and inserts: the
three client fields, id left at the zero value (omitted on insert). -/
def createPayload (req : CreateBlogRequest) : BlogItem :=
  { id := ObjectID.zero
    authorId := req.blog.authorId
    title := req.blog.title
    content := req.blog.content }

/-- `CreateBlog` handler: build a `blogItem` from the request (no id),
insert it with `context.Background()`; store error ⇒ `Internal`; an
inserted id that is not an `ObjectID` ⇒ `Internal`; otherwise echo the
request fields with the hex of the assigned id. -/
def CreateBlog (ctx : Ctx) (col : MongoCollection) (req : CreateBlogRequest) :
    Except GrpcError CreateBlogResponse × List StoreCall :=
  match col.insertOne Ctx.background (createPayload req) with
  | .error insertErr =>
    (.error ⟨.Internal, "Interal error: " ++ insertErr⟩,
     [StoreCall.insertOne Ctx.background (createPayload req)])
  | .ok resp =>
    match resp.insertedID with
    | .objectID blogID =>
      (.ok ⟨{ id := blogID.hex
              authorId := req.blog.authorId
              title := req.blog.title
              content := req.blog.content }⟩,
       [StoreCall.insertOne Ctx.background (createPayload req)])
    | .other _ =>
      (.error ⟨.Internal, "Can not convert to ObjectID: %!v(<nil>)"⟩,
       [StoreCall.insertOne Ctx.background (createPayload req)])

/-- `ReadBlog` handler: parse the id (failure ⇒ `InvalidArgument`, no
store call); `FindOne` with `context.Background()` and decode; any decode
error ⇒ `NotFound`; otherwise return the converted stored document. -/
def ReadBlog (ctx : Ctx) (col : MongoCollection) (req : ReadBlogRequest) :
    Except GrpcError ReadBlogResponse × List StoreCall :=
  match ObjectIDFromHex req.blogId with
  | .error e => (.error ⟨.InvalidArgument, "Invalid blog ID :" ++ e⟩, [])
  | .ok oID =>
    match col.findOne Ctx.background oID with
    | .error err =>
      (.error ⟨.NotFound, "Blog not found: " ++ err.text⟩,
       [StoreCall.findOne Ctx.background oID])
    | .ok data =>
      (.ok ⟨blogItemToBlogpb data⟩, [StoreCall.findOne Ctx.background oID])

/-- The replacement payload `UpdateBlog` builds from the request: the
three client fields, id left at the zero value (excluded from the
payload; the store matches by the filter). -/
def updatePayload (req : UpdateBlogRequest) : BlogItem :=
  { id := ObjectID.zero
    authorId := req.blog.authorId
    title := req.blog.title
    content := req.blog.content }

/-- `UpdateBlog` handler: parse the id (failure ⇒ `InvalidArgument`, no
store call); `ReplaceOne` with `context.Background()`, discarding the
returned result and keeping only the error; any store error ⇒ `NotFound`;
otherwise set the parsed id on the payload and return it converted. -/
def UpdateBlog (ctx : Ctx) (col : MongoCollection) (req : UpdateBlogRequest) :
    Except GrpcError UpdateBlogResponse × List StoreCall :=
  match ObjectIDFromHex req.blog.id with
  | .error e => (.error ⟨.InvalidArgument, "Can not parse blog ID: " ++ e⟩, [])
  | .ok blogID =>
    match col.replaceOne Ctx.background blogID (updatePayload req) with
    | .error updateErr =>
      (.error ⟨.NotFound, "Can not update blog : " ++ updateErr⟩,
       [StoreCall.replaceOne Ctx.background blogID (updatePayload req)])
    | .ok _ =>
      (.ok ⟨blogItemToBlogpb { updatePayload req with id := blogID }⟩,
       [StoreCall.replaceOne Ctx.background blogID (updatePayload req)])

/-- `DeleteBlog` handler: parse the id (failure ⇒ `InvalidArgument`, no
store call); `DeleteOne` with `context.Background()`; store error ⇒
`Internal`; deleted count zero ⇒ `NotFound`; otherwise echo the request
id string. -/
def DeleteBlog (ctx : Ctx) (col : MongoCollection) (req : DeleteBlogRequest) :
    Except GrpcError DeleteBlogResponse × List StoreCall :=
  match ObjectIDFromHex req.blogId with
  | .error e => (.error ⟨.InvalidArgument, "Can not parse blog ID: " ++ e⟩, [])
  | .ok oID =>
    match col.deleteOne Ctx.background oID with
    | .error deleteErr =>
      (.error ⟨.Internal, "Can not delete blog : " ++ deleteErr⟩,
       [StoreCall.deleteOne Ctx.background oID])
    | .ok res =>
      if res.deletedCount = 0 then
        (.error ⟨.NotFound, "Not found blog with provided ID"⟩,
         [StoreCall.deleteOne Ctx.background oID])
      else
        (.ok ⟨req.blogId⟩, [StoreCall.deleteOne Ctx.background oID])

/-- The outcome of a `ListBlog` invocation: the handler's return value,
the stream messages it attempted to send, whether a cursor was acquired
and whether it was closed, and the store calls issued. -/
structure ListOutcome where
  result : Except GrpcError Unit
  sent : List ListBlogResponse
  cursorAcquired : Bool
  cursorClosed : Bool
  calls : List StoreCall
deriving Repr

/-- The `for cur.Next { ... }` loop of `ListBlog`: decode each document
(`cur.Decode`); a decode failure returns `Internal` at once, emitting no
further element; otherwise the message is sent on the stream and the
send's return value is discarded (`sendOutcome i` is the error, if any,
of the i-th send).  Returns the loop's outcome and the messages sent. -/
def listLoop (sendOutcome : Nat → Option String) :
    List RawDoc → Nat → Except GrpcError Unit × List ListBlogResponse
  | [], _ => (.ok (), [])
  | .bad m :: _, _ => (.error ⟨.Internal, "unable to decode data : " ++ m⟩, [])
  | .good item :: rest, i =>
    let _sendErr := sendOutcome i
    let next := listLoop sendOutcome rest (i + 1)
    (next.1, ⟨blogItemToBlogpb item⟩ :: next.2)

/-- `ListBlog` handler: `Find` with `context.Background()` (failure ⇒
`Internal`, no cursor acquired); `defer cur.Close(...)` closes the cursor
on every later exit path; iterate sending each decoded document; decode
failure ⇒ `Internal`; then `cur.Err()` non-nil ⇒ `Internal`; else `OK`. -/
def ListBlog (ctx : Ctx) (col : MongoCollection)
    (sendOutcome : Nat → Option String) : ListOutcome :=
  match col.find Ctx.background with
  | .error e =>
    { result := .error ⟨.Internal, "internal error when find collection: " ++ e⟩
      sent := []
      cursorAcquired := false
      cursorClosed := false
      calls := [StoreCall.find Ctx.background] }
  | .ok cur =>
    match listLoop sendOutcome cur.docs 0 with
    | (.error e, sent) =>
      { result := .error e
        sent := sent
        cursorAcquired := true
        cursorClosed := true
        calls := [StoreCall.find Ctx.background] }
    | (.ok _, sent) =>
      match cur.finalErr with
      | some e =>
        { result := .error ⟨.Internal, "internal error from cursor: " ++ e⟩
          sent := sent
          cursorAcquired := true
          cursorClosed := true
          calls := [StoreCall.find Ctx.background] }
      | none =>
        { result := .ok ()
          sent := sent
          cursorAcquired := true
          cursorClosed := true
          calls := [StoreCall.find Ctx.background] }

/-! Concrete fixtures used by witnesses and counterexamples. -/

/-- A concrete well-formed identifier string (24 lowercase hex chars). -/
def sampleHexId : String := "0102030405060708090a0b0c"

/-- The identifier `sampleHexId` decodes to. -/
def sampleOID : ObjectID := ⟨[1, 2, 3, 4, 5, 6, 7, 8, 9, 10, 11, 12]⟩

/-- A store oracle whose every operation fails with a generic error. -/
def baseStore : MongoCollection :=
  { insertOne := fun _ _ => .error "store down"
    findOne := fun _ _ => .error .noDocuments
    replaceOne := fun _ _ _ => .error "store down"
    deleteOne := fun _ _ => .error "store down"
    find := fun _ => .error "store down" }

/-- A concrete stored document. -/
def itemA : BlogItem := ⟨sampleOID, "u1", "world", "hello"⟩

/-- A second concrete stored document. -/
def itemB : BlogItem := ⟨sampleOID, "u2", "c2", "t2"⟩

/-- A store whose replace succeeds while matching zero documents. -/
def storeReplZero : MongoCollection :=
  { baseStore with replaceOne := fun _ _ _ => .ok ⟨0⟩ }

/-- A store whose insert succeeds and assigns `sampleOID`. -/
def storeInsertOK : MongoCollection :=
  { baseStore with insertOne := fun _ _ => .ok ⟨.objectID sampleOID⟩ }

/-- A store whose insert acknowledgment carries a non-`ObjectID` id. -/
def storeInsertOther : MongoCollection :=
  { baseStore with insertOne := fun _ _ => .ok ⟨.other 7⟩ }

/-- A store whose delete succeeds with deleted count one. -/
def storeDeleteHit : MongoCollection :=
  { baseStore with deleteOne := fun _ _ => .ok ⟨1⟩ }

/-- A store whose replace succeeds with matched count one. -/
def storeReplHit : MongoCollection :=
  { baseStore with replaceOne := fun _ _ _ => .ok ⟨1⟩ }

/-- A store in which the single-document decode fails with a corrupt
document, and scanning yields one good document then a corrupt one. -/
def storeCorrupt : MongoCollection :=
  { baseStore with
      findOne := fun _ _ => .error (.corrupt "bson decode failure")
      find := fun _ => .ok ⟨[.good itemA, .bad "bson decode failure"], none⟩ }

/-- A store whose scan yields two decodable documents and a clean
cursor end. -/
def storeTwoDocs : MongoCollection :=
  { baseStore with find := fun _ => .ok ⟨[.good itemA, .good itemB], none⟩ }

/-! Helper lemmas about the `ListBlog` iteration. -/

/-- The loop outcome does not depend on the send outcomes: the handler
discards `stream.Send`'s return value. -/
theorem listLoop_sendOutcome_irrelevant (f g : Nat → Option String)
    (docs : List RawDoc) (i : Nat) :
    listLoop f docs i = listLoop g docs i := by
  induction docs generalizing i with
  | nil => rfl
  | cons d rest ih =>
    cases d with
    | bad m => rfl
    | good item => simp [listLoop, ih (i + 1)]

/-- On a run of decodable documents followed by an undecodable one, the
loop aborts with `Internal` having emitted exactly the earlier records. -/
theorem listLoop_append_bad (f : Nat → Option String) (items : List BlogItem)
    (m : String) (rest : List RawDoc) (i : Nat) :
    listLoop f (items.map RawDoc.good ++ RawDoc.bad m :: rest) i =
      (.error ⟨.Internal, "unable to decode data : " ++ m⟩,
       items.map fun it => ⟨blogItemToBlogpb it⟩) := by
  induction items generalizing i with
  | nil => rfl
  | cons it its ih => simp [listLoop, ih (i + 1)]

/-- On a list of decodable documents the loop completes normally, having
emitted every record in order. -/
theorem listLoop_all_good (f : Nat → Option String) (items : List BlogItem)
    (i : Nat) :
    listLoop f (items.map RawDoc.good) i =
      (.ok (), items.map fun it => ⟨blogItemToBlogpb it⟩) := by
  induction items generalizing i with
  | nil => rfl
  | cons it its ih => simp [listLoop, ih (i + 1)]

/-! Claim theorems. -/

/-- Claim C3: for every string that is not a well-formed identifier,
Read, Update and Delete each fail with an `InvalidArgument`-class error
and issue no store operation at all (the parse check comes before any
store access). -/
theorem claim3_malformed_id_rejected_before_store (s e : String)
    (h : ObjectIDFromHex s = .error e) (ctx : Ctx) (col : MongoCollection)
    (b : Blog) (hb : b.id = s) :
    ReadBlog ctx col ⟨s⟩ =
      (.error ⟨.InvalidArgument, "Invalid blog ID :" ++ e⟩, []) ∧
    UpdateBlog ctx col ⟨b⟩ =
      (.error ⟨.InvalidArgument, "Can not parse blog ID: " ++ e⟩, []) ∧
    DeleteBlog ctx col ⟨s⟩ =
      (.error ⟨.InvalidArgument, "Can not parse blog ID: " ++ e⟩, []) := by
  refine ⟨?_, ?_, ?_⟩ <;> simp [ReadBlog, UpdateBlog, DeleteBlog, hb, h]

/-- Claim C3 witness: the empty string is not a well-formed identifier,
and Read on it yields `InvalidArgument` with no store call. -/
theorem claim3_witness :
    ReadBlog ⟨7⟩ baseStore ⟨""⟩ =
      (.error ⟨.InvalidArgument,
        "Invalid blog ID :the provided hex string is not a valid ObjectID"⟩,
       []) :=
  (claim3_malformed_id_rejected_before_store ""
    "the provided hex string is not a valid ObjectID" rfl ⟨7⟩ baseStore
    ⟨"", "u1", "hello", "world"⟩ rfl).1

/-- Claim C4: when the insert succeeds returning a native identifier,
Create answers OK with the hex encoding of the assigned id and the three
request fields echoed unchanged, having issued exactly the one insert. -/
theorem claim4_create_success_echoes_request (ctx : Ctx)
    (col : MongoCollection) (req : CreateBlogRequest) (oid : ObjectID)
    (h : col.insertOne Ctx.background (createPayload req) =
      .ok ⟨.objectID oid⟩) :
    CreateBlog ctx col req =
      (.ok ⟨{ id := oid.hex
              authorId := req.blog.authorId
              title := req.blog.title
              content := req.blog.content }⟩,
       [StoreCall.insertOne Ctx.background (createPayload req)]) := by
  simp [CreateBlog, h]

/-- Claim C4 witness: a concrete successful create echoes the request
fields with the assigned id hex-encoded. -/
theorem claim4_witness :
    CreateBlog ⟨3⟩ storeInsertOK ⟨⟨"", "u1", "hello", "world"⟩⟩ =
      (.ok ⟨⟨"0102030405060708090a0b0c", "u1", "hello", "world"⟩⟩,
       [StoreCall.insertOne Ctx.background ⟨ObjectID.zero, "u1", "world", "hello"⟩]) :=
  claim4_create_success_echoes_request ⟨3⟩ storeInsertOK
    ⟨⟨"", "u1", "hello", "world"⟩⟩ sampleOID rfl

/-- Claim C5: when the insert succeeds but the acknowledged identifier is
not the store's native identifier type, Create fails with an
`Internal`-class error. -/
theorem claim5_create_bad_inserted_id_internal (ctx : Ctx)
    (col : MongoCollection) (req : CreateBlogRequest) (t : Nat)
    (h : col.insertOne Ctx.background (createPayload req) = .ok ⟨.other t⟩) :
    (CreateBlog ctx col req).1 =
      .error ⟨.Internal, "Can not convert to ObjectID: %!v(<nil>)"⟩ := by
  simp [CreateBlog, h]

/-- Claim C5 witness: a concrete misbehaving store makes Create fail
`Internal`. -/
theorem claim5_witness :
    (CreateBlog ⟨3⟩ storeInsertOther ⟨⟨"", "u1", "hello", "world"⟩⟩).1 =
      .error ⟨.Internal, "Can not convert to ObjectID: %!v(<nil>)"⟩ :=
  claim5_create_bad_inserted_id_internal ⟨3⟩ storeInsertOther
    ⟨⟨"", "u1", "hello", "world"⟩⟩ 7 rfl

/-- Claim C6: for a well-formed id, Delete maps a store error to
`Internal`, a successful delete with deleted count zero to `NotFound`,
and otherwise answers OK echoing exactly the request's id string. -/
theorem claim6_delete_outcomes (ctx : Ctx) (col : MongoCollection)
    (s : String) (oid : ObjectID) (hparse : ObjectIDFromHex s = .ok oid) :
    (∀ e, col.deleteOne Ctx.background oid = .error e →
      (DeleteBlog ctx col ⟨s⟩).1 =
        .error ⟨.Internal, "Can not delete blog : " ++ e⟩) ∧
    (∀ r, col.deleteOne Ctx.background oid = .ok r → r.deletedCount = 0 →
      (DeleteBlog ctx col ⟨s⟩).1 =
        .error ⟨.NotFound, "Not found blog with provided ID"⟩) ∧
    (∀ r, col.deleteOne Ctx.background oid = .ok r → r.deletedCount ≠ 0 →
      (DeleteBlog ctx col ⟨s⟩).1 = .ok ⟨s⟩) := by
  refine ⟨fun e he => ?_, fun r hr h0 => ?_, fun r hr h0 => ?_⟩ <;>
    simp [DeleteBlog, hparse, *]

/-- Claim C6 witness: a concrete delete that matches one document
answers OK with the request's id string. -/
theorem claim6_witness :
    (DeleteBlog ⟨9⟩ storeDeleteHit ⟨sampleHexId⟩).1 = .ok ⟨sampleHexId⟩ :=
  (claim6_delete_outcomes ⟨9⟩ storeDeleteHit sampleHexId sampleOID
    rfl).2.2 ⟨1⟩ rfl (by decide)

/-- Claim C7: for a well-formed id whose replace call succeeds, Update's
response is built from the client-submitted replacement fields plus the
hex of the parsed id — no re-fetch from the store is involved. -/
theorem claim7_update_success_echoes_request (ctx : Ctx)
    (col : MongoCollection) (req : UpdateBlogRequest) (oid : ObjectID)
    (r : ReplaceResult) (hparse : ObjectIDFromHex req.blog.id = .ok oid)
    (hrepl : col.replaceOne Ctx.background oid (updatePayload req) = .ok r) :
    (UpdateBlog ctx col req).1 =
      .ok ⟨{ id := oid.hex
             authorId := req.blog.authorId
             title := req.blog.title
             content := req.blog.content }⟩ := by
  simp only [UpdateBlog, hparse, hrepl]
  simp [blogItemToBlogpb, updatePayload]

/-- Claim C7 witness: a concrete successful update echoes the request
payload with the parsed id hex-encoded. -/
theorem claim7_witness :
    (UpdateBlog ⟨2⟩ storeReplHit ⟨⟨sampleHexId, "u1", "hello", "world"⟩⟩).1 =
      .ok ⟨⟨"0102030405060708090a0b0c", "u1", "hello", "world"⟩⟩ :=
  claim7_update_success_echoes_request ⟨2⟩ storeReplHit
    ⟨⟨sampleHexId, "u1", "hello", "world"⟩⟩ sampleOID ⟨1⟩ rfl rfl

/-- Claim C1 counterexample: with a store whose replace call succeeds
while matching zero documents, Update on a well-formed id answers OK
(echoing the payload) — it does not fail with a NotFound-class error. -/
theorem claim1_counterexample :
    (UpdateBlog ⟨4⟩ storeReplZero ⟨⟨sampleHexId, "u1", "hello", "world"⟩⟩).1 =
      .ok ⟨⟨"0102030405060708090a0b0c", "u1", "hello", "world"⟩⟩ := rfl

/-- Claim C1 (amended): for a well-formed id, any error returned by the
replace call makes Update fail with a `NotFound`-class error; but a
replace call that succeeds — whatever its matched count, zero included —
makes Update answer OK (the matched count is discarded). -/
theorem claim1_update_replace_error_to_notFound (ctx : Ctx)
    (col : MongoCollection) (req : UpdateBlogRequest) (oid : ObjectID)
    (hparse : ObjectIDFromHex req.blog.id = .ok oid) :
    (∀ e, col.replaceOne Ctx.background oid (updatePayload req) = .error e →
      (UpdateBlog ctx col req).1 =
        .error ⟨.NotFound, "Can not update blog : " ++ e⟩) ∧
    (∀ r, col.replaceOne Ctx.background oid (updatePayload req) = .ok r →
      (UpdateBlog ctx col req).1 =
        .ok ⟨{ id := oid.hex
               authorId := req.blog.authorId
               title := req.blog.title
               content := req.blog.content }⟩) := by
  constructor
  · intro e he
    simp [UpdateBlog, hparse, he]
  · intro r hr
    simp only [UpdateBlog, hparse, hr]
    simp [blogItemToBlogpb, updatePayload]

/-- Claim C1 witness: a store-level replace error on a well-formed id
yields `NotFound`, and a zero-match successful replace yields OK. -/
theorem claim1_witness :
    (UpdateBlog ⟨2⟩ baseStore ⟨⟨sampleHexId, "u1", "hello", "world"⟩⟩).1 =
      .error ⟨.NotFound, "Can not update blog : store down"⟩ ∧
    (UpdateBlog ⟨2⟩ storeReplZero ⟨⟨sampleHexId, "u1", "hello", "world"⟩⟩).1 =
      .ok ⟨⟨"0102030405060708090a0b0c", "u1", "hello", "world"⟩⟩ :=
  ⟨(claim1_update_replace_error_to_notFound ⟨2⟩ baseStore
      ⟨⟨sampleHexId, "u1", "hello", "world"⟩⟩ sampleOID rfl).1 "store down" rfl,
   (claim1_update_replace_error_to_notFound ⟨2⟩ storeReplZero
      ⟨⟨sampleHexId, "u1", "hello", "world"⟩⟩ sampleOID rfl).2 ⟨0⟩ rfl⟩

/-- Claim C2 counterexample: in Read, a decode failure on the fetched
document is reported as `NotFound`, not `Internal`. -/
theorem claim2_counterexample :
    (ReadBlog ⟨6⟩ storeCorrupt ⟨sampleHexId⟩).1 =
      .error ⟨.NotFound, "Blog not found: bson decode failure"⟩ := rfl

/-- Claim C2 (amended): in List, a record decode failure aborts the
stream with an `Internal`-class error after emitting only the earlier
records; in Read, a decode failure is reported as `NotFound` (conflated
with the no-document case), not `Internal`. -/
theorem claim2_decode_failure_statuses (ctx : Ctx) (col : MongoCollection)
    (s : String) (oid : ObjectID) (m : String) (f : Nat → Option String)
    (hparse : ObjectIDFromHex s = .ok oid)
    (hfind : col.findOne Ctx.background oid = .error (.corrupt m)) :
    (ReadBlog ctx col ⟨s⟩).1 =
      .error ⟨.NotFound, "Blog not found: " ++ m⟩ ∧
    (∀ (cur : Cursor) (items : List BlogItem) (rest : List RawDoc),
      col.find Ctx.background = .ok cur →
      cur.docs = items.map RawDoc.good ++ RawDoc.bad m :: rest →
      (ListBlog ctx col f).result =
        .error ⟨.Internal, "unable to decode data : " ++ m⟩ ∧
      (ListBlog ctx col f).sent =
        items.map fun it => ⟨blogItemToBlogpb it⟩) := by
  constructor
  · simp [ReadBlog, hparse, hfind, DecodeErr.text]
  · intro cur items rest hfindok hdocs
    simp [ListBlog, hfindok, hdocs, listLoop_append_bad]

/-- Claim C2 witness: on a concrete store, Read surfaces a decode
failure as `NotFound` while List surfaces one as `Internal`. -/
theorem claim2_witness :
    (ReadBlog ⟨1⟩ storeCorrupt ⟨sampleHexId⟩).1 =
      .error ⟨.NotFound, "Blog not found: bson decode failure"⟩ ∧
    (ListBlog ⟨1⟩ storeCorrupt (fun _ => none)).result =
      .error ⟨.Internal, "unable to decode data : bson decode failure"⟩ := by
  have h := claim2_decode_failure_statuses ⟨1⟩ storeCorrupt sampleHexId
    sampleOID "bson decode failure" (fun _ => none) rfl rfl
  exact ⟨h.1,
    (h.2 ⟨[.good itemA, .bad "bson decode failure"], none⟩ [itemA] [] rfl
      rfl).1⟩

/-- Claim C8: whenever a cursor is acquired by List, it is closed when
iteration ends, on every exit path — normal completion, decode failure
and post-iteration cursor error alike (and it is never closed when Find
itself failed and no cursor was acquired). -/
theorem claim8_cursor_always_released (ctx : Ctx) (col : MongoCollection)
    (f : Nat → Option String) :
    (ListBlog ctx col f).cursorClosed = (ListBlog ctx col f).cursorAcquired := by
  unfold ListBlog
  cases col.find Ctx.background with
  | error e => rfl
  | ok cur =>
    rcases hl : listLoop f cur.docs 0 with ⟨r, sent⟩
    cases r with
    | error e => simp [hl]
    | ok u => cases hf : cur.finalErr <;> simp [hl, hf]

/-- Claim C9: the result of sending a record on the stream is discarded:
the whole List outcome (status, messages attempted, cursor handling and
store calls) is the same for any assignment of send outcomes, and with a
clean cursor of decodable records the handler still answers OK having
sent every record, even if every send failed. -/
theorem claim9_send_result_discarded (ctx : Ctx) (col : MongoCollection)
    (f g : Nat → Option String) :
    ListBlog ctx col f = ListBlog ctx col g ∧
    (∀ (cur : Cursor) (items : List BlogItem),
      col.find Ctx.background = .ok cur → cur.finalErr = none →
      cur.docs = items.map RawDoc.good →
      (ListBlog ctx col f).result = .ok () ∧
      (ListBlog ctx col f).sent =
        items.map fun it => ⟨blogItemToBlogpb it⟩) := by
  constructor
  · unfold ListBlog
    simp only [listLoop_sendOutcome_irrelevant f g]
  · intro cur items hfind hfe hdocs
    simp [ListBlog, hfind, hdocs, hfe, listLoop_all_good]

/-- Claim C9 witness: on a concrete two-record store where every send
fails, List still answers OK and still attempted to send both records. -/
theorem claim9_witness :
    (ListBlog ⟨8⟩ storeTwoDocs (fun _ => some "transport send failed")).result =
      .ok () ∧
    (ListBlog ⟨8⟩ storeTwoDocs (fun _ => some "transport send failed")).sent =
      [⟨blogItemToBlogpb itemA⟩, ⟨blogItemToBlogpb itemB⟩] :=
  (claim9_send_result_discarded ⟨8⟩ storeTwoDocs
      (fun _ => some "transport send failed") (fun _ => none)).2
    ⟨[.good itemA, .good itemB], none⟩ [itemA, itemB] rfl rfl rfl

/-- Claim C10: every handler's outcome is independent of the
caller-supplied request context, and every store call any handler issues
carries `context.Background()`. -/
theorem claim10_background_context (ctx1 ctx2 : Ctx) (col : MongoCollection)
    (reqC : CreateBlogRequest) (reqR : ReadBlogRequest)
    (reqU : UpdateBlogRequest) (reqD : DeleteBlogRequest)
    (f : Nat → Option String) :
    (CreateBlog ctx1 col reqC = CreateBlog ctx2 col reqC ∧
     ReadBlog ctx1 col reqR = ReadBlog ctx2 col reqR ∧
     UpdateBlog ctx1 col reqU = UpdateBlog ctx2 col reqU ∧
     DeleteBlog ctx1 col reqD = DeleteBlog ctx2 col reqD ∧
     ListBlog ctx1 col f = ListBlog ctx2 col f) ∧
    (((CreateBlog ctx1 col reqC).2.all fun c => c.ctx == Ctx.background) = true ∧
     ((ReadBlog ctx1 col reqR).2.all fun c => c.ctx == Ctx.background) = true ∧
     ((UpdateBlog ctx1 col reqU).2.all fun c => c.ctx == Ctx.background) = true ∧
     ((DeleteBlog ctx1 col reqD).2.all fun c => c.ctx == Ctx.background) = true ∧
     ((ListBlog ctx1 col f).calls.all fun c => c.ctx == Ctx.background) = true) := by
  refine ⟨⟨rfl, rfl, rfl, rfl, rfl⟩, ?_, ?_, ?_, ?_, ?_⟩
  · unfold CreateBlog
    split
    · rfl
    · split <;> rfl
  · unfold ReadBlog
    split
    · rfl
    · split <;> rfl
  · unfold UpdateBlog
    split
    · rfl
    · split <;> rfl
  · unfold DeleteBlog
    split
    · rfl
    · split
      · rfl
      · split <;> rfl
  · unfold ListBlog
    split
    · rfl
    · split
      · rfl
      · split <;> rfl

end BlogService
